import Mathlib

/-!
Shallow embedding of the autonomous content-generation agent
(`src/autonomous-agent/content_agent.py` and `src/autonomous-agent/config.py`).

External collaborators (HTTP fetches, the language-model calls, the GitHub
content-tree API, the workflow-dispatch hook) are modelled as inputs of type
`Except Fault _`: `.ok` is a call that returned normally, `.error` a call that
raised.  The Python control flow (try/except nesting, loops, the scheduler)
is translated statement by statement into total Lean functions; the list of
remote content-tree calls a run performs is returned explicitly so that
properties about which calls happen can be stated.
-/

namespace ContentAgentModel

/-- A raised Python exception, identified by its message. -/
abbrev Fault := String

/-- Does the character list `hay` start with `needle`?  Helper for the
substring tests the source performs with the Python `in` operator. -/
def beginsWith : List Char → List Char → Bool
  | [], _ => true
  | _ :: _, [] => false
  | n :: ns, h :: hs => n == h && beginsWith ns hs

/-- Does `needle` occur as a contiguous substring of `hay` (Python `in`)? -/
def hasSub (needle : List Char) : List Char → Bool
  | [] => beginsWith needle []
  | h :: hs => beginsWith needle (h :: hs) || hasSub needle hs

/-- String wrapper for `hasSub`. -/
def strHasSub (needle hay : String) : Bool :=
  hasSub needle.toList hay.toList

/-- Number of (possibly overlapping) occurrences of `needle` in `hay`,
counted at every position of `hay`.  Used to count reference lines in the
index artifact. -/
def countOccur (needle : List Char) : List Char → Nat
  | [] => 0
  | h :: hs => (if beginsWith needle (h :: hs) then 1 else 0) + countOccur needle hs

/-- String wrapper for `countOccur`. -/
def strCount (needle hay : String) : Nat :=
  countOccur needle.toList hay.toList

/-! ### Configuration constants (`config.py`)

These are defined in `config.py`; note that `content_agent.py` never
imports `config.py` and hard-codes its own copies of the source lists and
caps, so the quality thresholds below are declared but never consulted by
the agent. -/

/-- `AgentConfig.MIN_VIDEO_VIEWS` (config.py line 39). -/
def MIN_VIDEO_VIEWS : Nat := 1000

/-- `AgentConfig.MIN_GITHUB_STARS` (config.py line 40). -/
def MIN_GITHUB_STARS : Nat := 50

/-- `AgentConfig.MIN_REDDIT_SCORE` (config.py line 41). -/
def MIN_REDDIT_SCORE : Int := 10

/-- `AgentConfig.CYCLE_INTERVAL_HOURS` (config.py line 33). -/
def CYCLE_INTERVAL_HOURS : Nat := 6

/-- `AgentConfig.CONTENT_FRESHNESS_DAYS` (config.py line 36). -/
def CONTENT_FRESHNESS_DAYS : Nat := 7

/-! ### Records and the freshness comparison -/

/-- One parsed feed entry (feedparser entry as used by the YouTube and Swift
blog adapters): title, link, publication time, summary, author.  Times are
modelled as integers counting days (the source compares
`datetime.now() - pub_date` against a `timedelta` in days). -/
structure Entry where
  title : String
  link : String
  published : Int
  summary : String
  author : String

/-- A video record appended by `scrape_youtube_content` (lines 107-113). -/
structure Video where
  title : String
  url : String
  published : Int
  description : String
  channel : String

/-- A blog-post record appended by `scrape_swift_blog` (lines 194-199). -/
structure BlogPost where
  title : String
  url : String
  published : Int
  summary : String

/-- The freshness comparison the adapters perform inline:
`datetime.now() - pub_date <= timedelta(days=window)` (content_agent.py
line 106 with window 7, line 193 with window 30).  The comparison is
inclusive at the boundary. -/
def keep_if_recent (now published window : Int) : Bool :=
  now - published ≤ window

/-- One parsed `div.update-item` of the Apple documentation page: the
optional `h3`, `time` (its datetime attribute), `p` and link elements
(content_agent.py lines 132-135). -/
structure AppleItem where
  titleElem : Option String
  timeElem : Option String
  descElem : Option String
  linkHref : Option String

/-- An update record built by `scrape_apple_docs` (lines 137-143). -/
structure AppleUpdate where
  title : String
  date : String
  description : String
  url : String

/-- Lines 137-143: a record is appended only `if title_elem and date_elem`;
the description and url fall back to the empty string. -/
def appleItemToUpdate (it : AppleItem) : Option AppleUpdate :=
  match it.titleElem, it.timeElem with
  | some t, some dt =>
      some { title := t, date := dt, description := it.descElem.getD "",
             url := it.linkHref.getD "" }
  | _, _ => none

/-- One parsed `article.Box-row` of the GitHub trending page: the optional
`h2`, `p` and stargazers-link elements (content_agent.py lines 162-164). -/
structure RepoItem where
  titleText : Option String
  descText : Option String
  starsText : Option String

/-- A repository record built by `scrape_github_trending` (lines 166-173). -/
structure RepoRec where
  name : String
  description : String
  stars : String
  url : String

/-- Line 167: `title.get_text().strip().replace(chr 10, empty).replace(space,
empty)` — all spaces and newlines are removed from the repo name. -/
def squashName (s : String) : String :=
  String.mk (s.toList.filter (fun c => !(c == ' ' || c == '\n')))

/-- Lines 166-173: a record is appended only if the `h2` element exists. -/
def repoItemToRec (it : RepoItem) : Option RepoRec :=
  match it.titleText with
  | some t =>
      let repoName := squashName t
      some { name := repoName, description := it.descText.getD "",
             stars := it.starsText.getD "0",
             url := "https://github.com/" ++ repoName }
  | none => none

/-- One post of a subreddit JSON listing (`post.data` fields used at
lines 219-230). -/
structure RedditPost where
  title : String
  permalink : String
  score : Int
  num_comments : Nat

/-- A discussion record built by `scrape_reddit_content` (lines 224-230). -/
structure Discussion where
  title : String
  url : String
  score : Int
  comments : Nat
  subreddit : String

/-- The keyword list of the relevance test at lines 222-223. -/
def redditKeywords : List String :=
  ["swift", "ios", "xcode", "swiftui", "performance", "monetization"]

/-- Python `str.lower()`, character by character. -/
def pyLower (s : String) : String :=
  String.mk (s.toList.map Char.toLower)

/-- Lines 222-223: `any(keyword in post.title.lower() for keyword in ...)`.
Note the test looks only at the title; the score is never consulted. -/
def redditRelevant (p : RedditPost) : Bool :=
  redditKeywords.any (fun k => strHasSub k (pyLower p.title))

/-! ### Source adapters

Each adapter takes the outcome of its external fetch-and-parse calls as an
`Except Fault _` input.  The try/except blocks of the source are mirrored by
matching on that outcome. -/

/-- `ContentAgent.scrape_youtube_content`, body of the per-channel loop
(lines 95-116): on a raised fetch/parse the `except` at line 115 logs and
contributes nothing; otherwise the first 5 entries are kept if published in
the last 7 days. -/
def youtubeChannelVideos (now : Int) (fetched : Except Fault (List Entry)) :
    List Video :=
  match fetched with
  | .error _ => []
  | .ok entries =>
      ((entries.take 5).filter (fun en => keep_if_recent now en.published 7)).map
        (fun en => { title := en.title, url := en.link, published := en.published,
                     description := en.summary, channel := en.author })

/-- `ContentAgent.scrape_youtube_content` (lines 90-118): iterates the
channel list, accumulating each channel's contribution in order. -/
def scrape_youtube_content (now : Int) :
    List (Except Fault (List Entry)) → List Video
  | [] => []
  | f :: fs => youtubeChannelVideos now f ++ scrape_youtube_content now fs

/-- `ContentAgent.scrape_apple_docs` (lines 120-148): the whole body is one
try block; a raised fetch returns the (still empty) accumulator. -/
def scrape_apple_docs (fetched : Except Fault (List AppleItem)) :
    List AppleUpdate :=
  match fetched with
  | .error _ => []
  | .ok items => (items.take 10).filterMap appleItemToUpdate

/-- `ContentAgent.scrape_github_trending` (lines 150-178): one try block; a
raised fetch returns the empty accumulator.  No star threshold is applied. -/
def scrape_github_trending (fetched : Except Fault (List RepoItem)) :
    List RepoRec :=
  match fetched with
  | .error _ => []
  | .ok items => (items.take 10).filterMap repoItemToRec

/-- `ContentAgent.scrape_swift_blog` (lines 180-204): one try block; the
first 5 entries are kept if published in the last 30 days. -/
def scrape_swift_blog (now : Int) (fetched : Except Fault (List Entry)) :
    List BlogPost :=
  match fetched with
  | .error _ => []
  | .ok entries =>
      ((entries.take 5).filter (fun en => keep_if_recent now en.published 30)).map
        (fun en => { title := en.title, url := en.link, published := en.published,
                     summary := en.summary })

/-- `ContentAgent.scrape_reddit_content`, body of the per-subreddit loop
(lines 211-233): on a raised fetch the `except` at line 232 logs and
contributes nothing; otherwise keyword-relevant posts become records. -/
def subredditPosts (sub : String) (fetched : Except Fault (List RedditPost)) :
    List Discussion :=
  match fetched with
  | .error _ => []
  | .ok posts =>
      (posts.filter redditRelevant).map
        (fun p => { title := p.title, url := "https://reddit.com" ++ p.permalink,
                    score := p.score, comments := p.num_comments, subreddit := sub })

/-- `ContentAgent.scrape_reddit_content` (lines 206-235): iterates the
subreddit list, accumulating each subreddit's contribution in order. -/
def scrape_reddit_content :
    List (String × Except Fault (List RedditPost)) → List Discussion
  | [] => []
  | (sub, f) :: fs => subredditPosts sub f ++ scrape_reddit_content fs

/-! ### Analysis and content-generation steps -/

/-- The parsed structured response of the insight generator: a mapping of
named categories to content (json.loads at line 267).  Only emptiness and
propagation matter to the pipeline. -/
abbrev InsightSet := List (String × String)

/-- The parsed structured response of the content generator (json.loads at
line 306): keys such as "new_chapter", "code_updates", ... -/
abbrev GeneratedContent := List (String × String)

/-- `ContentAgent.analyze_content` (lines 237-272): one try block around the
model call and `json.loads`; any raised error is logged and an empty mapping
is returned. -/
def analyze_content (callResult : Except Fault InsightSet) : InsightSet :=
  match callResult with
  | .ok insights => insights
  | .error _ => []

/-- `ContentAgent.generate_course_updates` (lines 274-311).  The source
serializes `insights` into the prompt and invokes the completion API
unconditionally — there is no emptiness check — so the first component,
recording whether a generator call was performed, is always `true`.  Any
raised error is logged and an empty mapping returned. -/
def generate_course_updates (insights : InsightSet)
    (callResult : Except Fault GeneratedContent) : Bool × GeneratedContent :=
  (true,
   match callResult with
   | .ok updates => updates
   | .error _ => [])

/-! ### The content tree (GitHub repository) -/

/-- A file of the remote content tree: its content and a version token
(`sha` in PyGithub; modelled as a counter bumped on update). -/
structure RepoFile where
  content : String
  sha : Nat
  deriving DecidableEq

/-- The remote content tree: a path-indexed file map. -/
structure RepoState where
  files : List (String × RepoFile)
  deriving DecidableEq

/-- Externally injected faults of the remote API (network error, auth
failure, mid-flight conflict): when set, the corresponding call raises with
the given message instead of acting on the tree. -/
structure RemoteEnv where
  getFault : Option Fault
  updateFault : Option Fault
  createFault : Option Fault

/-- A remote environment in which every call reaches the tree. -/
def noFaults : RemoteEnv := { getFault := none, updateFault := none, createFault := none }

/-- Path lookup in the file map. -/
def lookupFile (fs : List (String × RepoFile)) (p : String) : Option RepoFile :=
  match fs with
  | [] => none
  | (q, f) :: rest => if q == p then some f else lookupFile rest p

/-- Replace the file at a path (no-op if absent). -/
def replaceFile (fs : List (String × RepoFile)) (p : String) (f : RepoFile) :
    List (String × RepoFile) :=
  match fs with
  | [] => []
  | (q, g) :: rest => if q == p then (q, f) :: rest else (q, g) :: replaceFile rest p f

/-- `repo.get_contents(path)`: raises if the path is absent (PyGithub raises
`UnknownObjectException`), or if an injected remote fault fires. -/
def repo_get_contents (env : RemoteEnv) (s : RepoState) (p : String) :
    Except Fault RepoFile :=
  match env.getFault with
  | some e => .error e
  | none =>
      match lookupFile s.files p with
      | some f => .ok f
      | none => .error "NotFound"

/-- `repo.create_file(path, message, content)`: raises if the path already
exists (the API rejects a create without a sha), or on an injected fault. -/
def repo_create_file (env : RemoteEnv) (s : RepoState) (p : String)
    (message content : String) : Except Fault RepoState :=
  match env.createFault with
  | some e => .error e
  | none =>
      match lookupFile s.files p with
      | some _ => .error "AlreadyExists"
      | none => .ok { files := s.files ++ [(p, { content := content, sha := 0 })] }

/-- `repo.update_file(path, message, content, sha)`: succeeds only when the
supplied version token matches the current one (optimistic concurrency);
raises on a stale token, an absent path, or an injected fault. -/
def repo_update_file (env : RemoteEnv) (s : RepoState) (p : String)
    (message content : String) (sha : Nat) : Except Fault RepoState :=
  match env.updateFault with
  | some e => .error e
  | none =>
      match lookupFile s.files p with
      | none => .error "NotFound"
      | some f =>
          if f.sha == sha then
            .ok { files := replaceFile s.files p { content := content, sha := f.sha + 1 } }
          else .error "Conflict"

/-- One remote content-tree call, recorded in the trace a publisher run
returns (our observation of which API requests the source issues). -/
inductive Call where
  | getC (path : String)
  | createC (path : String)
  | updateC (path : String)
  deriving DecidableEq

/-! ### Publisher -/

/-- The date-keyed chapter path (line 323). -/
def chapterPath (timestamp : String) : String :=
  "book/src/auto-generated/chapter_" ++ timestamp ++ ".md"

/-- The index artifact path (lines 358, 370). -/
def summaryPath : String := "book/src/SUMMARY.md"

/-- The reference line appended to the index artifact (line 362). -/
def refLine (timestamp : String) : String :=
  "- [Auto-Generated " ++ timestamp ++ "](./auto-generated/chapter_" ++ timestamp ++ ".md)\n"

/-- The section-header sentinel checked at line 364. -/
def autoGenHeader : String := "# Auto-Generated Content"

/-- `ContentAgent.update_summary_file` (lines 354-377): read the index
artifact, append the section header if absent, append the reference line
unconditionally, and write back with the read version token.  The whole body
is one try block whose except logs and returns, so a raised read or write
leaves the tree unchanged.  Returns the new tree and the calls made. -/
def update_summary_file (env : RemoteEnv) (s : RepoState) (timestamp : String) :
    RepoState × List Call :=
  match repo_get_contents env s summaryPath with
  | .error _ => (s, [Call.getC summaryPath])
  | .ok summary_file =>
      let current_content := summary_file.content
      let new_line := refLine timestamp
      let current_content :=
        if strHasSub autoGenHeader current_content then current_content
        else current_content ++ "\n# Auto-Generated Content\n\n"
      let current_content := current_content ++ new_line
      match repo_update_file env s summaryPath
          ("Auto-update: Add chapter " ++ timestamp ++ " to summary")
          current_content summary_file.sha with
      | .error _ => (s, [Call.getC summaryPath, Call.updateC summaryPath])
      | .ok s2 => (s2, [Call.getC summaryPath, Call.updateC summaryPath])

/-- `ContentAgent.update_course_repo` (lines 313-352).  Empty content returns
at once (line 316).  If a "new_chapter" key is present, the inner try at
lines 329-343 reads the chapter path and applies a versioned update; on ANY
raised error there (bare `except:` at line 337) it falls through to an
unconditional create of the same path.  A raised create escapes to the outer
try, whose except at line 351 logs and returns, skipping the index update.
Otherwise `update_summary_file` runs.  Returns the new tree and the calls
made. -/
def update_course_repo (env : RemoteEnv) (s : RepoState)
    (new_content : GeneratedContent) (timestamp : String) : RepoState × List Call :=
  if new_content.isEmpty then (s, [])
  else
    match new_content.lookup "new_chapter" with
    | none => (s, [])
    | some file_content =>
        let filename := chapterPath timestamp
        match repo_get_contents env s filename with
        | .ok file =>
            match repo_update_file env s filename
                ("Auto-update: New chapter " ++ timestamp) file_content file.sha with
            | .ok s2 =>
                let r := update_summary_file env s2 timestamp
                (r.1, Call.getC filename :: Call.updateC filename :: r.2)
            | .error _ =>
                match repo_create_file env s filename
                    ("Auto-generate: New chapter " ++ timestamp) file_content with
                | .ok s2 =>
                    let r := update_summary_file env s2 timestamp
                    (r.1, Call.getC filename :: Call.updateC filename ::
                          Call.createC filename :: r.2)
                | .error _ =>
                    (s, [Call.getC filename, Call.updateC filename, Call.createC filename])
        | .error _ =>
            match repo_create_file env s filename
                ("Auto-generate: New chapter " ++ timestamp) file_content with
            | .ok s2 =>
                let r := update_summary_file env s2 timestamp
                (r.1, Call.getC filename :: Call.createC filename :: r.2)
            | .error _ => (s, [Call.getC filename, Call.createC filename])

/-- The current text of the index artifact. -/
def summaryText (s : RepoState) : String :=
  match lookupFile s.files summaryPath with
  | some f => f.content
  | none => ""

/-- `ContentAgent.deploy_updates` (lines 379-390): the workflow dispatch is
issued unconditionally inside a try block whose except only logs.  Returns
(hook invoked, dispatch succeeded). -/
def deploy_updates (dispatchResult : Except Fault Unit) : Bool × Bool :=
  (true,
   match dispatchResult with
   | .ok _ => true
   | .error _ => false)

/-! ### One cycle and the scheduler loop -/

/-- The outcomes of every external call one cycle makes, plus the current
time: the fetch results of each adapter, the two generator calls, the remote
content-tree behaviour, and the workflow dispatch. -/
structure CycleEnv where
  youtubeFeeds : List (Except Fault (List Entry))
  appleFetch : Except Fault (List AppleItem)
  githubFetch : Except Fault (List RepoItem)
  blogFetch : Except Fault (List Entry)
  redditFetches : List (String × Except Fault (List RedditPost))
  now : Int
  analysisResult : Except Fault InsightSet
  generationResult : Except Fault GeneratedContent
  remote : RemoteEnv
  dispatchResult : Except Fault Unit

/-- The per-tag snapshot built by `ContentAgent.scrape_all_sources`
(lines 68-88). -/
structure ContentSnapshot where
  apple_updates : List AppleUpdate
  youtube_videos : List Video
  github_trending : List RepoRec
  swift_blog : List BlogPost
  reddit_discussions : List Discussion

/-- `ContentAgent.scrape_all_sources` (lines 68-88): run every adapter and
collect the snapshot. -/
def scrape_all_sources (env : CycleEnv) : ContentSnapshot :=
  { apple_updates := scrape_apple_docs env.appleFetch,
    youtube_videos := scrape_youtube_content env.now env.youtubeFeeds,
    github_trending := scrape_github_trending env.githubFetch,
    swift_blog := scrape_swift_blog env.now env.blogFetch,
    reddit_discussions := scrape_reddit_content env.redditFetches }

/-- Everything observable about one completed cycle body (steps 1-5 of
`run_autonomous_cycle`, lines 47-59). -/
structure CycleOutcome where
  snapshot : ContentSnapshot
  insights : InsightSet
  generatorCalled : Bool
  updates : GeneratedContent
  repoState : RepoState
  publisherCalls : List Call
  hookInvoked : Bool
  dispatchOk : Bool

/-- The body of one cycle (lines 47-59): scrape, analyze, generate, publish,
deploy, in sequence.  Each step contains its own faults, so the body runs to
completion for every modelled input. -/
def run_cycle (env : CycleEnv) (s : RepoState) (timestamp : String) : CycleOutcome :=
  let snapshot := scrape_all_sources env
  let insights := analyze_content env.analysisResult
  let gen := generate_course_updates insights env.generationResult
  let pub := update_course_repo env.remote s gen.2 timestamp
  let dep := deploy_updates env.dispatchResult
  { snapshot := snapshot, insights := insights, generatorCalled := gen.1,
    updates := gen.2, repoState := pub.1, publisherCalls := pub.2,
    hookInvoked := dep.1, dispatchOk := dep.2 }

/-- What one iteration of the scheduler loop decides: how long to sleep,
whether the loop continues (there is no break or return in the `while True`
at line 42, so it always does), the content tree afterwards, and the
publisher calls made. -/
structure IterOutcome where
  sleepSecs : Nat
  continues : Bool
  state : RepoState
  publisherCalls : List Call
  hookInvoked : Bool

/-- One iteration of `ContentAgent.run_autonomous_cycle` (lines 40-66).
`bodyFault` models an exception escaping the cycle body (every fault point
inside the five steps is contained locally, so such an exception can only
come from an unmodelled point, e.g. the HTTP session construction at
line 72): the except at line 64 logs it and sleeps 1800 seconds.  A clean
body sleeps 6*3600 seconds (line 62).  The loop always continues. -/
def run_autonomous_cycle_iter (env : CycleEnv) (s : RepoState) (timestamp : String)
    (bodyFault : Option Fault) : IterOutcome :=
  match bodyFault with
  | some _ =>
      { sleepSecs := 1800, continues := true, state := s,
        publisherCalls := [], hookInvoked := false }
  | none =>
      let o := run_cycle env s timestamp
      { sleepSecs := 6 * 3600, continues := true, state := o.repoState,
        publisherCalls := o.publisherCalls, hookInvoked := o.hookInvoked }

/-- The state of the content tree after `n` iterations of the scheduler loop
(`while True` at line 42), given per-iteration external behaviour.  Only the
remote tree persists across iterations. -/
def run_autonomous_cycle (envs : Nat → CycleEnv) (timestamps : Nat → String)
    (bodyFaults : Nat → Option Fault) (s0 : RepoState) : Nat → RepoState
  | 0 => s0
  | n + 1 =>
      (run_autonomous_cycle_iter (envs n)
        (run_autonomous_cycle envs timestamps bodyFaults s0 n)
        (timestamps n) (bodyFaults n)).state

/-! ### Concrete scenario values used by the claim theorems -/

/-- A cycle environment in which every external call succeeds trivially. -/
def sampleEnv : CycleEnv :=
  { youtubeFeeds := [], appleFetch := Except.ok [], githubFetch := Except.ok [],
    blogFetch := Except.ok [], redditFetches := [], now := 0,
    analysisResult := Except.ok [], generationResult := Except.ok [],
    remote := noFaults, dispatchResult := Except.ok () }

/-- A sample cycle date. -/
def d0 : String := "20260101"

/-- A parsed generator response carrying a chapter. -/
def chapterContent : GeneratedContent := [("new_chapter", "Chapter body")]

/-- Content tree holding only the index artifact (no chapter yet). -/
def initRepo3 : RepoState :=
  { files := [(summaryPath, { content := "# Summary\n", sha := 0 })] }

/-- Content tree holding the index artifact and an existing chapter for
date `d0`. -/
def initRepo10 : RepoState :=
  { files := [(chapterPath d0, { content := "old chapter", sha := 0 }),
              (summaryPath, { content := "# Summary\n", sha := 0 })] }

/-- First fault-free publisher invocation on `initRepo3`. -/
def pub1 : RepoState × List Call :=
  update_course_repo noFaults initRepo3 chapterContent d0

/-- Second fault-free publisher invocation, with the same chapter content
and date, on the tree `pub1` produced. -/
def pub2 : RepoState × List Call :=
  update_course_repo noFaults pub1.1 chapterContent d0

/-- A remote environment in which the versioned update and the create both
raise (e.g. a conflict or network error), as injected faults. -/
def conflictRemote (e : Fault) : RemoteEnv :=
  { getFault := none, updateFault := some e, createFault := some e }

/-- A Reddit post whose title matches the keyword filter but whose score is
below `MIN_REDDIT_SCORE`. -/
def lowScorePost : RedditPost :=
  { title := "Swift concurrency tips", permalink := "/r/swift/comments/abc",
    score := 1, num_comments := 3 }

/-- A trending-page item whose star text is below `MIN_GITHUB_STARS`. -/
def lowStarsItem : RepoItem :=
  { titleText := some "foo/bar", descText := some "lib", starsText := some "5" }

/-! ### Claim theorems -/

set_option maxRecDepth 100000

/-- Claim C1, counterexample.  The claim says that with an empty InsightSet
the Content Generator Step performs no generator call and returns an empty
GeneratedContent.  At this concrete input — analysis failed, so the insight
set is empty, and the second generator call parses to a chapter — the step
does perform the call and returns non-empty content. -/
theorem c1_counterexample :
    (generate_course_updates (analyze_content (Except.error "rate limit"))
        (Except.ok [("new_chapter", "X")])).1 = true ∧
    (generate_course_updates (analyze_content (Except.error "rate limit"))
        (Except.ok [("new_chapter", "X")])).2 ≠ [] :=
  ⟨rfl, by decide⟩

/-- Claim C1, amended.  When the Analysis Step produces an empty InsightSet
(failed call or unparseable response), the Content Generator Step still
performs its generator call unconditionally; when that second call fails or
does not parse, the step returns an empty GeneratedContent, and the cycle
completes without raising and sleeps the long interval. -/
theorem c1_amended (e e2 : Fault) (env : CycleEnv) (s : RepoState) (timestamp : String) :
    let env2 : CycleEnv :=
      { env with analysisResult := Except.error e, generationResult := Except.error e2 }
    (run_cycle env2 s timestamp).insights = [] ∧
    (run_cycle env2 s timestamp).generatorCalled = true ∧
    (run_cycle env2 s timestamp).updates = [] ∧
    (run_autonomous_cycle_iter env2 s timestamp none).continues = true ∧
    (run_autonomous_cycle_iter env2 s timestamp none).sleepSecs = 6 * 3600 := by
  intro env2
  exact ⟨rfl, rfl, rfl, rfl, rfl⟩

/-- Claim C2, counterexample.  The claim says a failed Publisher write
propagates to the scheduler, which sleeps the short backoff interval.  At
this concrete input — both the versioned update and the fallback create
raise a conflict — the Publisher swallows the failure and the scheduler
sleeps the long interval, not 1800 seconds. -/
theorem c2_counterexample :
    let env2 : CycleEnv :=
      { sampleEnv with remote := conflictRemote "409 Conflict",
                       generationResult := Except.ok chapterContent }
    let it := run_autonomous_cycle_iter env2 initRepo10 d0 none
    it.publisherCalls = [Call.getC (chapterPath d0), Call.updateC (chapterPath d0),
                         Call.createC (chapterPath d0)] ∧
    it.state = initRepo10 ∧
    it.sleepSecs = 6 * 3600 ∧
    it.sleepSecs ≠ 1800 := by
  intro env2 it
  exact ⟨rfl, rfl, rfl, by decide⟩

/-- Claim C2, amended.  When a Publisher write to the content tree fails,
the Publisher performs no retries (one update attempt, one fallback create
attempt, each made exactly once) and catches the failure internally, so
nothing propagates to the Cycle Scheduler: the cycle completes and the
scheduler sleeps the long interval, not the short backoff. -/
theorem c2_amended (e : Fault) (env : CycleEnv) :
    let env2 : CycleEnv :=
      { env with remote := conflictRemote e,
                 generationResult := Except.ok chapterContent }
    let it := run_autonomous_cycle_iter env2 initRepo10 d0 none
    it.publisherCalls = [Call.getC (chapterPath d0), Call.updateC (chapterPath d0),
                         Call.createC (chapterPath d0)] ∧
    it.state = initRepo10 ∧
    it.continues = true ∧
    it.sleepSecs = 6 * 3600 := by
  intro env2 it
  exact ⟨rfl, rfl, rfl, rfl⟩

/-- Claim C3, counterexample.  The claim says that after publishing the same
chapter content and date twice, the index artifact contains exactly one
reference line for the chapter path.  After the two fault-free invocations
`pub1` and `pub2` it contains that line twice, because the append at
line 367 of the source is unconditional. -/
theorem c3_counterexample :
    strCount (refLine d0) (summaryText pub2.1) = 2 ∧
    ¬ strCount (refLine d0) (summaryText pub2.1) = 1 := by
  have h2 : strCount (refLine d0) (summaryText pub2.1) = 2 := rfl
  exact ⟨h2, by rw [h2]; decide⟩

/-- Claim C3, amended.  Invoking the Publisher twice with the same chapter
content and date performs exactly one creation of the date-keyed chapter
path followed by one update (never two creations), but the index artifact
contains TWO reference lines for that chapter path after both invocations:
only the section header is duplicate-checked, the reference line is appended
again on every run. -/
theorem c3_amended :
    pub1.2 = [Call.getC (chapterPath d0), Call.createC (chapterPath d0),
              Call.getC summaryPath, Call.updateC summaryPath] ∧
    pub2.2 = [Call.getC (chapterPath d0), Call.updateC (chapterPath d0),
              Call.getC summaryPath, Call.updateC summaryPath] ∧
    (pub1.2 ++ pub2.2).count (Call.createC (chapterPath d0)) = 1 ∧
    (pub1.2 ++ pub2.2).count (Call.updateC (chapterPath d0)) = 1 ∧
    strCount (refLine d0) (summaryText pub2.1) = 2 :=
  ⟨rfl, rfl, rfl, rfl, rfl⟩

/-- Claim C4, counterexample.  The claim says the Publish Hook is invoked
only when the Publisher reports at least one changed artifact.  At this
concrete input the content generation fails, the Publisher performs zero
content-tree calls, and the hook is invoked anyway. -/
theorem c4_counterexample :
    let o := run_cycle { sampleEnv with generationResult := Except.error "api down" }
      (RepoState.mk []) d0
    o.publisherCalls = [] ∧ o.hookInvoked = true := by
  intro o
  exact ⟨rfl, rfl⟩

/-- Claim C4, amended.  The Publish Hook is invoked unconditionally at the
end of every cycle body that completes: step 5 of the loop calls
`deploy_updates` with no condition, and the Publisher produces no
changed-artifact report at all. -/
theorem c4_amended (env : CycleEnv) (s : RepoState) (timestamp : String) :
    (run_cycle env s timestamp).hookInvoked = true :=
  rfl

/-- Claim C5: for every source adapter, a raised fetch never escapes the
adapter boundary — the adapter is total on fault inputs — and a failed fetch
yields the empty record sequence (for the multi-origin adapters, when every
origin's fetch fails). -/
theorem c5_fetch_failure_yields_empty (e : Fault) (now : Int) (n : Nat)
    (subs : List String) :
    scrape_apple_docs (Except.error e) = [] ∧
    scrape_github_trending (Except.error e) = [] ∧
    scrape_swift_blog now (Except.error e) = [] ∧
    scrape_youtube_content now (List.replicate n (Except.error e)) = [] ∧
    scrape_reddit_content (subs.map (fun sub => (sub, Except.error e))) = [] := by
  refine ⟨rfl, rfl, rfl, ?_, ?_⟩
  · induction n with
    | zero => rfl
    | succ k ih =>
        simpa [List.replicate, scrape_youtube_content, youtubeChannelVideos] using ih
  · induction subs with
    | nil => rfl
    | cons sub rest ih =>
        simpa [scrape_reddit_content, subredditPosts] using ih

/-- Claim C6: every iteration of the scheduler loop continues (the loop
never terminates), sleeping 6 hours after a cycle body that completed
without an uncaught fault and 30 minutes after one in which an uncaught
exception reached the scheduler. -/
theorem c6_scheduler_loop (envs : Nat → CycleEnv) (timestamps : Nat → String)
    (bodyFaults : Nat → Option Fault) (s0 : RepoState) (n : Nat) :
    let it := run_autonomous_cycle_iter (envs n)
      (run_autonomous_cycle envs timestamps bodyFaults s0 n) (timestamps n) (bodyFaults n)
    it.continues = true ∧
    it.sleepSecs = (match bodyFaults n with | none => 6 * 3600 | some _ => 1800) := by
  intro it
  cases h : bodyFaults n <;> simp [it, run_autonomous_cycle_iter, h]

/-- Claim C7: the freshness comparison excludes a record exactly when
`now - publishedAt` exceeds the window, and keeps a record exactly at the
boundary (the comparison is inclusive). -/
theorem c7_freshness_boundary (now published window : Int) :
    (keep_if_recent now published window = false ↔ window < now - published) ∧
    keep_if_recent now published (now - published) = true := by
  constructor
  · simp [keep_if_recent, not_le]
    omega
  · simp [keep_if_recent]

/-- Claim C8, counterexample.  The claim says no record below a configured
quality threshold ever enters a ContentSnapshot.  This Reddit post has score
1, below `MIN_REDDIT_SCORE` (10), yet the Reddit adapter includes it: the
relevance test at lines 222-223 looks only at title keywords. -/
theorem c8_counterexample :
    lowScorePost.score < MIN_REDDIT_SCORE ∧
    scrape_reddit_content [("r/swift", Except.ok [lowScorePost])] =
      [{ title := "Swift concurrency tips",
         url := "https://reddit.com/r/swift/comments/abc",
         score := 1, comments := 3, subreddit := "r/swift" }] :=
  ⟨by decide, rfl⟩

/-- Claim C8, amended.  The quality thresholds are declared in the
configuration but never applied by any adapter: the Reddit adapter's
inclusion decision is independent of the score, a below-threshold post
enters the snapshot, and the GitHub adapter applies no star filter (the
YouTube adapter never even collects view counts). -/
theorem c8_amended :
    (∀ score : Int,
      (scrape_reddit_content
        [("r/swift", Except.ok
          [{ title := "Swift concurrency tips", permalink := "/r/swift/comments/abc",
             score := score, num_comments := 3 }])]).length = 1) ∧
    lowScorePost.score < MIN_REDDIT_SCORE ∧
    scrape_github_trending (Except.ok [lowStarsItem]) =
      [{ name := "foo/bar", description := "lib", stars := "5",
         url := "https://github.com/foo/bar" }] :=
  ⟨fun _ => rfl, by decide, rfl⟩

/-- Claim C9: in the multi-origin adapters, a raised fetch for one origin is
caught per origin, so the adapter returns exactly the records accumulated
from the origins before and after the failing one. -/
theorem c9_per_origin_isolation (now : Int) (e : Fault)
    (pre post : List (Except Fault (List Entry))) (sub : String)
    (rpre rpost : List (String × Except Fault (List RedditPost))) :
    scrape_youtube_content now (pre ++ Except.error e :: post) =
      scrape_youtube_content now pre ++ scrape_youtube_content now post ∧
    scrape_reddit_content (rpre ++ (sub, Except.error e) :: rpost) =
      scrape_reddit_content rpre ++ scrape_reddit_content rpost := by
  constructor
  · induction pre with
    | nil => simp [scrape_youtube_content, youtubeChannelVideos]
    | cons f fs ih => simp [scrape_youtube_content, ih]
  · induction rpre with
    | nil => simp [scrape_reddit_content, subredditPosts]
    | cons f fs ih =>
        obtain ⟨s1, r1⟩ := f
        simp [scrape_reddit_content, ih]

/-- Claim C10: the Publisher's create-vs-update decision is
exception-driven.  Whatever exception the read of the existing chapter or
the versioned update raises — an injected conflict/network fault `e`, not
only a not-found condition — the Publisher falls through to an unconditional
create call on the same path instead of surfacing the error. -/
theorem c10_exception_driven_create (e : Fault) :
    (update_course_repo { noFaults with updateFault := some e }
        initRepo10 chapterContent d0).2 =
      [Call.getC (chapterPath d0), Call.updateC (chapterPath d0),
       Call.createC (chapterPath d0)] ∧
    (update_course_repo { noFaults with getFault := some e }
        initRepo10 chapterContent d0).2 =
      [Call.getC (chapterPath d0), Call.createC (chapterPath d0)] :=
  ⟨rfl, rfl⟩

end ContentAgentModel
